import Mathlib

/-
  Verification of the message-trace reporting utility
  (src/reporting_web_services.py).

  The heart of the program is the nested function `background_task`: it reads
  the form fields, validates them, ensures the destination folder exists,
  exchanges client credentials for a bearer token, issues one GET against the
  reporting endpoint and writes the raw response body to a timestamped file.
  We embed it as a pure function from the form state and an abstract "world"
  (directory existence, the two HTTP outcomes, the current wall-clock time)
  to the ordered list of observable events the task performs: dialogs shown,
  directory creation, label updates, HTTP requests issued, files written and
  the final explorer reveal.  A small filesystem model interprets the write
  events so that multi-run properties can be stated.

  Modelling notes:
  * `requests.post` / `requests.get` return either a response or raise a
    `RequestException`; `HttpOutcome` captures both.  `raise_for_status`
    raises exactly for status codes `400 ≤ c` (4xx/5xx).
  * `response.json().get("access_token")` is modelled by the
    `access_token : Option String` field of the token response; the body is
    assumed to parse as JSON (the claims all presuppose a JSON response).
  * Python truthiness `if not token` treats both a missing and an empty
    token as absent; the embedding mirrors this.
  * `datetime` values are records of numeric fields; `strftime` patterns
    `%Y-%m-%d` and `%Y%m%d_%H%M%S` are embedded as zero-padded digit lists.
  * `os.path.join` is embedded with a fixed separator; the only facts used
    about it are which folder and file name it combines.
  * Apostrophes inside the OData filter literals are written `\x27`.
-/

namespace RWS

/-! ### Digits, dates and `strftime` patterns -/

/-- One decimal digit character, as produced by zero-padded `strftime`
fields: the character for `n % 10`. -/
def digitChar (n : Nat) : Char := Char.ofNat (48 + n % 10)

/-- Two zero-padded decimal digits (`%m`, `%d`, `%H`, `%M`, `%S`). -/
def pad2L (n : Nat) : List Char := [digitChar (n / 10), digitChar n]

/-- Four zero-padded decimal digits (`%Y` for years below 10000). -/
def pad4L (n : Nat) : List Char :=
  [digitChar (n / 1000), digitChar (n / 100), digitChar (n / 10), digitChar n]

/-- A calendar date, the value held by a `DateEntry` picker
(`get_date()` always returns a date). -/
structure Date where
  year : Nat
  month : Nat
  day : Nat
  deriving DecidableEq, Repr

/-- `date.strftime('%Y-%m-%d')` from lines 38-39 of the source. -/
def formatDateISO (d : Date) : String :=
  String.mk (pad4L d.year ++ '-' :: pad2L d.month ++ '-' :: pad2L d.day)

/-- A wall-clock instant, the value of `datetime.now()` at save time. -/
structure DateTime where
  year : Nat
  month : Nat
  day : Nat
  hour : Nat
  minute : Nat
  second : Nat
  deriving DecidableEq, Repr

/-- `datetime.now().strftime('%Y%m%d_%H%M%S')` from line 119 of the source. -/
def formatTimestampCompact (t : DateTime) : String :=
  String.mk (pad4L t.year ++ pad2L t.month ++ pad2L t.day ++
    '_' :: (pad2L t.hour ++ pad2L t.minute ++ pad2L t.second))

/-! ### Python `str.strip` -/

/-- The characters Python's `str.strip()` removes. -/
def pyIsSpace (c : Char) : Bool :=
  c = ' ' || c = '\t' || c = '\n' || c = '\r' || c = '\x0b' || c = '\x0c'

/-- Python `s.strip()`: drop leading and trailing whitespace. -/
def strip (s : String) : String :=
  String.mk (((s.data.dropWhile pyIsSpace).reverse.dropWhile pyIsSpace).reverse)

/-! ### Form state, HTTP world and events -/

/-- The form fields `background_task` reads (lines 35-43, 59-61):
raw entry contents for the text fields, picker dates for the date fields. -/
structure FormState where
  app_id_raw : String
  tenant_id_raw : String
  app_secret_raw : String
  start_date_val : Date
  end_date_val : Date
  save_path : String
  report_type : String
  sender_address_raw : String
  recipient_address_raw : String
  message_trace_id_raw : String
  deriving DecidableEq, Repr

/-- The token response as seen by the code: its status code and
`response.json().get("access_token")`. -/
structure TokenResponse where
  status : Nat
  access_token : Option String
  deriving DecidableEq, Repr

/-- The report response as seen by the code: `status_code`, `text` and the
raw body bytes `content`. -/
structure ReportResponse where
  status_code : Nat
  text : String
  content : List Nat
  deriving DecidableEq, Repr

/-- Outcome of an HTTP call: a response, or a transport-level
`RequestException` carrying its message. -/
inductive HttpOutcome (α : Type) where
  | resp : α → HttpOutcome α
  | err : String → HttpOutcome α
  deriving DecidableEq, Repr

/-- The environment of one run: whether the destination folder already
exists, the outcomes of the two HTTP calls, and the current time at the
moment the output file name is formed. -/
structure World where
  dirExists : Bool
  tokenOutcome : HttpOutcome TokenResponse
  reportOutcome : HttpOutcome ReportResponse
  now : DateTime
  deriving DecidableEq, Repr

/-- The observable actions of `background_task`, in program order. -/
inductive Event where
  | errorDialog (title msg : String)
  | infoDialog (title msg : String)
  | makeDirs (path : String)
  | setLabel (text : String)
  | tokenPost (url : String) (data : List (String × String))
  | reportGet (url : String) (authHeader : String)
  | writeFile (path : String) (content : List Nat)
  | openExplorer (path : String)
  deriving DecidableEq, Repr

/-! ### URLs and request payloads (lines 76-110) -/

/-- `auth_url` of line 76. -/
def tokenUrl (tenant_id : String) : String :=
  "https://login.microsoftonline.com/" ++ tenant_id ++ "/oauth2/v2.0/token"

/-- `token_data` of lines 77-82. -/
def tokenData (app_id app_secret : String) : List (String × String) :=
  [("grant_type", "client_credentials"),
   ("client_id", app_id),
   ("client_secret", app_secret),
   ("scope", "https://outlook.office365.com/.default")]

/-- `base_url` of line 93. -/
def traceBaseUrl : String :=
  "https://reports.office365.com/ecp/reportingwebservice/reporting.svc/MessageTrace"

/-- `base_url` of line 96 (detail mode). -/
def detailBaseUrl : String :=
  "https://reports.office365.com/ecp/reportingwebservice/reporting.svc/MessageTraceDetail"

/-- `query_params` of lines 105-108 (trace mode). -/
def traceFilter (start_date end_date : String) : String :=
  "$filter=StartDate eq datetime\x27" ++ start_date ++
  "T00:00:00Z\x27 and EndDate eq datetime\x27" ++ end_date ++ "T23:59:59Z\x27"

/-- `query_params` of lines 97-103 (detail mode). -/
def detailFilter (message_trace_id recipient_address sender_address
    start_date end_date : String) : String :=
  "$filter=MessageTraceId eq guid\x27" ++ message_trace_id ++
  "\x27 and RecipientAddress eq \x27" ++ recipient_address ++
  "\x27 and SenderAddress eq \x27" ++ sender_address ++
  "\x27 and StartDate eq datetime\x27" ++ start_date ++
  "T00:00:00Z\x27 and EndDate eq datetime\x27" ++ end_date ++ "T23:59:59Z\x27"

/-- `url = f"{base_url}?{query_params}"` (lines 95-110), with the
mode selection of line 95. -/
def reportUrl (f : FormState) : String :=
  if f.report_type = "Message Trace Detail" then
    detailBaseUrl ++ "?" ++
      detailFilter (strip f.message_trace_id_raw) (strip f.recipient_address_raw)
        (strip f.sender_address_raw) (formatDateISO f.start_date_val)
        (formatDateISO f.end_date_val)
  else
    traceBaseUrl ++ "?" ++
      traceFilter (formatDateISO f.start_date_val) (formatDateISO f.end_date_val)

/-- `os.path.join(save_path, name)`: the only facts used about it are the
folder and the file name it combines; the separator is fixed. -/
def joinPath (dir file : String) : String := dir ++ "/" ++ file

/-- `output_path` of line 119. -/
def outputPath (f : FormState) (w : World) : String :=
  joinPath f.save_path
    ("MessageTraceReport_" ++ formatTimestampCompact w.now ++ ".xml")

/-- The text of the `HTTPError` raised by `response.raise_for_status()`;
the claims never inspect it, only that some error dialog is shown. -/
def httpStatusError (status : Nat) : String :=
  toString status ++ " Error for token url"

/-! ### The task itself (lines 32-139) -/

/-- Lines 111-128: the report GET has been issued; handle the outcome.
A transport error propagates to the `except` clause of line 130. -/
def handleReport (f : FormState) (w : World) : List Event :=
  match w.reportOutcome with
  | .err msg => [.errorDialog "Error" ("Request error: " ++ msg)]
  | .resp rr =>
    if rr.status_code ≠ 200 then
      [.errorDialog "Error" ("API call failed: " ++ rr.text)]
    else
      [.writeFile (outputPath f w) rr.content,
       .setLabel "Processing complete!",
       .infoDialog "Success" ("Report saved to " ++ outputPath f w),
       .openExplorer (outputPath f w)]

/-- Lines 83-128: the token POST has been issued; `raise_for_status`
(raises exactly for status codes `400 ≤ c < 600`, caught at line 130),
the token-presence check of lines 85-89, then the report GET. -/
def afterToken (f : FormState) (w : World) : List Event :=
  match w.tokenOutcome with
  | .err msg => [.errorDialog "Error" ("Request error: " ++ msg)]
  | .resp tr =>
    if 400 ≤ tr.status ∧ tr.status < 600 then
      [.errorDialog "Error" ("Request error: " ++ httpStatusError tr.status)]
    else
      match tr.access_token with
      | none => [.errorDialog "Error" "Failed to retrieve OAuth token!"]
      | some token =>
        if token = "" then
          [.errorDialog "Error" "Failed to retrieve OAuth token!"]
        else
          .reportGet (reportUrl f) ("Bearer " ++ token) :: handleReport f w

/-- The `try` body of `background_task` (lines 33-128): validation in
source order, directory creation, label update, then the two HTTP calls.
Note that `save_path` is tested as the raw value (`if not save_path`),
while the identity and detail fields are `.strip()`ped on read. -/
def backgroundTaskBody (f : FormState) (w : World) : List Event :=
  if strip f.app_id_raw = "" ∨ strip f.tenant_id_raw = "" ∨
     strip f.app_secret_raw = "" then
    [.errorDialog "Error" "App ID, Tenant ID, and App Secret are required!"]
  else if formatDateISO f.start_date_val = "" ∨ formatDateISO f.end_date_val = "" then
    [.errorDialog "Error" "Start Date and End Date are required!"]
  else if f.save_path = "" then
    [.errorDialog "Error" "Please select a folder to save the report!"]
  else if f.report_type = "Message Trace Detail" ∧
          (strip f.sender_address_raw = "" ∨ strip f.recipient_address_raw = "" ∨
           strip f.message_trace_id_raw = "") then
    [.errorDialog "Error"
      "Sender Address, Recipient Address, and Message Trace ID are mandatory for Message Trace Detail!"]
  else
    (if w.dirExists then [] else [.makeDirs f.save_path]) ++
    .setLabel "Processing... Please wait." ::
    .tokenPost (tokenUrl (strip f.tenant_id_raw))
      (tokenData (strip f.app_id_raw) (strip f.app_secret_raw)) ::
    afterToken f w

/-- The whole task: the `try` body followed by the `finally` clause of
lines 134-136, which clears the status label on every path. -/
def background_task (f : FormState) (w : World) : List Event :=
  backgroundTaskBody f w ++ [.setLabel ""]

/-! ### Event classifiers and the filesystem model -/

def isWriteEvent : Event → Bool
  | .writeFile _ _ => true
  | _ => false

def isNetworkEvent : Event → Bool
  | .tokenPost _ _ => true
  | .reportGet _ _ => true
  | _ => false

def isTokenPostEvent : Event → Bool
  | .tokenPost _ _ => true
  | _ => false

def isReportGetEvent : Event → Bool
  | .reportGet _ _ => true
  | _ => false

def isMakeDirsEvent : Event → Bool
  | .makeDirs _ => true
  | _ => false

/-- A flat filesystem: file path to byte content.  Opening a file with
mode `"wb"` truncates, so a write replaces any file at the same path. -/
def applyEvent (fs : List (String × List Nat)) : Event → List (String × List Nat)
  | .writeFile p c => (p, c) :: fs.filter (fun e => e.1 != p)
  | _ => fs

/-- Run a trace against the filesystem. -/
def applyEvents (fs : List (String × List Nat)) (es : List Event) :
    List (String × List Nat) :=
  es.foldl applyEvent fs

/-- `dirBeforeNet dirOk es = true` when every network event in `es` is
preceded (in program order) by the destination directory existing: either
it existed at the start (`dirOk`) or a `makeDirs` event came earlier. -/
def dirBeforeNet : Bool → List Event → Bool
  | _, [] => true
  | dirOk, e :: rest =>
      (!isNetworkEvent e || dirOk) && dirBeforeNet (dirOk || isMakeDirsEvent e) rest

/-- The conditions under which the validation of lines 45-65 lets the
submission through to the directory check and the network phase. -/
def passesValidation (f : FormState) : Prop :=
  strip f.app_id_raw ≠ "" ∧ strip f.tenant_id_raw ≠ "" ∧
  strip f.app_secret_raw ≠ "" ∧ f.save_path ≠ "" ∧
  (f.report_type = "Message Trace Detail" →
    strip f.sender_address_raw ≠ "" ∧ strip f.recipient_address_raw ≠ "" ∧
    strip f.message_trace_id_raw ≠ "")

instance (f : FormState) : Decidable (passesValidation f) := by
  unfold passesValidation; infer_instance

/-! ### Basic lemmas about formatting -/

lemma char_of_digit_inj :
    ∀ a, a < 10 → ∀ b, b < 10 →
      Char.ofNat (48 + a) = Char.ofNat (48 + b) → a = b := by decide

lemma digitChar_inj {a b : Nat} (h : digitChar a = digitChar b) :
    a % 10 = b % 10 :=
  char_of_digit_inj (a % 10) (Nat.mod_lt _ (by omega)) (b % 10)
    (Nat.mod_lt _ (by omega)) h

lemma formatDateISO_ne_empty (d : Date) : formatDateISO d ≠ "" := by
  intro h
  have h' : (pad4L d.year ++ '-' :: pad2L d.month ++ '-' :: pad2L d.day) =
      ([] : List Char) := congrArg String.data h
  simp [pad4L] at h'

lemma formatTimestampCompact_inj {t1 t2 : DateTime}
    (hy1 : t1.year < 10000) (hy2 : t2.year < 10000)
    (hmo1 : t1.month < 100) (hmo2 : t2.month < 100)
    (hd1 : t1.day < 100) (hd2 : t2.day < 100)
    (hh1 : t1.hour < 100) (hh2 : t2.hour < 100)
    (hmi1 : t1.minute < 100) (hmi2 : t2.minute < 100)
    (hs1 : t1.second < 100) (hs2 : t2.second < 100)
    (h : formatTimestampCompact t1 = formatTimestampCompact t2) : t1 = t2 := by
  obtain ⟨y1, mo1, d1, h1, mi1, s1⟩ := t1
  obtain ⟨y2, mo2, d2, h2, mi2, s2⟩ := t2
  have h' : (pad4L y1 ++ pad2L mo1 ++ pad2L d1 ++
      '_' :: (pad2L h1 ++ pad2L mi1 ++ pad2L s1)) =
      (pad4L y2 ++ pad2L mo2 ++ pad2L d2 ++
      '_' :: (pad2L h2 ++ pad2L mi2 ++ pad2L s2)) := congrArg String.data h
  simp only [pad4L, pad2L, List.cons_append, List.nil_append,
    List.cons.injEq] at h'
  simp only [DateTime.mk.injEq] at *
  obtain ⟨e1, e2, e3, e4, e5, e6, e7, e8, -, e9, e10, e11, e12, e13, e14, -⟩ := h'
  have q1 := digitChar_inj e1
  have q2 := digitChar_inj e2
  have q3 := digitChar_inj e3
  have q4 := digitChar_inj e4
  have q5 := digitChar_inj e5
  have q6 := digitChar_inj e6
  have q7 := digitChar_inj e7
  have q8 := digitChar_inj e8
  have q9 := digitChar_inj e9
  have q10 := digitChar_inj e10
  have q11 := digitChar_inj e11
  have q12 := digitChar_inj e12
  have q13 := digitChar_inj e13
  have q14 := digitChar_inj e14
  refine ⟨by omega, by omega, by omega, by omega, by omega, by omega⟩

/-- Once the directory is known to exist, `dirBeforeNet` is satisfied by
any continuation. -/
lemma dirBeforeNet_of_true : ∀ l : List Event, dirBeforeNet true l = true := by
  intro l
  induction l with
  | nil => rfl
  | cons e rest ih => simp [dirBeforeNet, ih]

/-- A string with a fixed non-empty literal in front differs from any
string starting with a different character. -/
lemma prefix_append_ne {p t : String} (s : String)
    (hp : p.data.head? ≠ t.data.head?) (hne : p.data ≠ []) : p ++ s ≠ t := by
  intro h
  apply hp
  have hd : p.data ++ s.data = t.data := by
    rw [← String.data_append, h]
  cases hpd : p.data with
  | nil => exact absurd hpd hne
  | cons c cs =>
    rw [hpd] at hd
    have ht : t.data.head? = some c := by rw [← hd]; rfl
    rw [ht]
    rfl

/-! ### Structural lemmas about the task -/

/-- When validation passes, the body is: optional directory creation,
the label update, the token POST, then the rest of the flow. -/
lemma body_of_valid {f : FormState} (w : World) (hv : passesValidation f) :
    backgroundTaskBody f w =
      (if w.dirExists then [] else [.makeDirs f.save_path]) ++
      .setLabel "Processing... Please wait." ::
      .tokenPost (tokenUrl (strip f.tenant_id_raw))
        (tokenData (strip f.app_id_raw) (strip f.app_secret_raw)) ::
      afterToken f w := by
  obtain ⟨h1, h2, h3, h4, h5⟩ := hv
  unfold backgroundTaskBody
  rw [if_neg (by rintro (h | h | h) <;> contradiction),
      if_neg (by
        rintro (h | h)
        · exact formatDateISO_ne_empty _ h
        · exact formatDateISO_ne_empty _ h),
      if_neg h4,
      if_neg (by
        rintro ⟨hrt, hc⟩
        obtain ⟨hs, hr, hm⟩ := h5 hrt
        rcases hc with h | h | h <;> contradiction)]

/-- A successful token exchange leads straight to the report GET. -/
lemma afterToken_success {w : World} (f : FormState) {tr : TokenResponse}
    {tok : String} (ht : w.tokenOutcome = .resp tr) (hs : tr.status < 400)
    (hk : tr.access_token = some tok) (hne : tok ≠ "") :
    afterToken f w = .reportGet (reportUrl f) ("Bearer " ++ tok) ::
      handleReport f w := by
  unfold afterToken
  rw [ht]
  dsimp only
  rw [if_neg (by omega : ¬(400 ≤ tr.status ∧ tr.status < 600)), hk]
  simp [hne]

/-- A 200 report response is written to the timestamped output file. -/
lemma handleReport_ok {w : World} (f : FormState) {rr : ReportResponse}
    (hr : w.reportOutcome = .resp rr) (h200 : rr.status_code = 200) :
    handleReport f w =
      [.writeFile (outputPath f w) rr.content,
       .setLabel "Processing complete!",
       .infoDialog "Success" ("Report saved to " ++ outputPath f w),
       .openExplorer (outputPath f w)] := by
  unfold handleReport
  rw [hr]
  simp [h200]

/-- A non-200 report response produces only the error dialog. -/
lemma handleReport_fail {w : World} (f : FormState) {rr : ReportResponse}
    (hr : w.reportOutcome = .resp rr) (h200 : rr.status_code ≠ 200) :
    handleReport f w = [.errorDialog "Error" ("API call failed: " ++ rr.text)] := by
  unfold handleReport
  rw [hr]
  simp [h200]

/-- The complete trace of a fully successful run. -/
lemma run_success {f : FormState} {w : World} {tr : TokenResponse}
    {tok : String} {rr : ReportResponse} (hv : passesValidation f)
    (ht : w.tokenOutcome = .resp tr) (hs : tr.status < 400)
    (hk : tr.access_token = some tok) (hne : tok ≠ "")
    (hr : w.reportOutcome = .resp rr) (h200 : rr.status_code = 200) :
    background_task f w =
      (if w.dirExists then [] else [.makeDirs f.save_path]) ++
      [.setLabel "Processing... Please wait.",
       .tokenPost (tokenUrl (strip f.tenant_id_raw))
         (tokenData (strip f.app_id_raw) (strip f.app_secret_raw)),
       .reportGet (reportUrl f) ("Bearer " ++ tok),
       .writeFile (outputPath f w) rr.content,
       .setLabel "Processing complete!",
       .infoDialog "Success" ("Report saved to " ++ outputPath f w),
       .openExplorer (outputPath f w),
       .setLabel ""] := by
  unfold background_task
  rw [body_of_valid w hv, afterToken_success f ht hs hk hne,
      handleReport_ok f hr h200]
  cases w.dirExists <;> simp

/-- The complete trace of a run whose report GET returns a non-200 status. -/
lemma run_reportFail {f : FormState} {w : World} {tr : TokenResponse}
    {tok : String} {rr : ReportResponse} (hv : passesValidation f)
    (ht : w.tokenOutcome = .resp tr) (hs : tr.status < 400)
    (hk : tr.access_token = some tok) (hne : tok ≠ "")
    (hr : w.reportOutcome = .resp rr) (h200 : rr.status_code ≠ 200) :
    background_task f w =
      (if w.dirExists then [] else [.makeDirs f.save_path]) ++
      [.setLabel "Processing... Please wait.",
       .tokenPost (tokenUrl (strip f.tenant_id_raw))
         (tokenData (strip f.app_id_raw) (strip f.app_secret_raw)),
       .reportGet (reportUrl f) ("Bearer " ++ tok),
       .errorDialog "Error" ("API call failed: " ++ rr.text),
       .setLabel ""] := by
  unfold background_task
  rw [body_of_valid w hv, afterToken_success f ht hs hk hne,
      handleReport_fail f hr h200]
  cases w.dirExists <;> simp

/-! ### The date-required dialog never appears -/

lemma startDateDialog_not_in_handleReport (f : FormState) (w : World) :
    Event.errorDialog "Error" "Start Date and End Date are required!" ∉
      handleReport f w := by
  unfold handleReport
  cases w.reportOutcome with
  | err msg =>
    intro h
    have h' := List.mem_singleton.mp h
    injection h' with h1 h2
    exact prefix_append_ne msg (by decide) (by decide) h2.symm
  | resp rr =>
    dsimp only
    by_cases h200 : rr.status_code ≠ 200
    · rw [if_pos h200]
      intro h
      have h' := List.mem_singleton.mp h
      injection h' with h1 h2
      exact prefix_append_ne rr.text (by decide) (by decide) h2.symm
    · rw [if_neg h200]
      intro h
      rcases List.mem_cons.mp h with h | h
      · exact Event.noConfusion h
      rcases List.mem_cons.mp h with h | h
      · exact Event.noConfusion h
      rcases List.mem_cons.mp h with h | h
      · exact Event.noConfusion h
      exact Event.noConfusion (List.mem_singleton.mp h)

lemma startDateDialog_not_in_afterToken (f : FormState) (w : World) :
    Event.errorDialog "Error" "Start Date and End Date are required!" ∉
      afterToken f w := by
  unfold afterToken
  cases w.tokenOutcome with
  | err msg =>
    intro h
    have h' := List.mem_singleton.mp h
    injection h' with h1 h2
    exact prefix_append_ne msg (by decide) (by decide) h2.symm
  | resp tr =>
    dsimp only
    by_cases hs : (400 ≤ tr.status ∧ tr.status < 600)
    · rw [if_pos hs]
      intro h
      have h' := List.mem_singleton.mp h
      injection h' with h1 h2
      exact prefix_append_ne (httpStatusError tr.status) (by decide) (by decide)
        h2.symm
    · rw [if_neg hs]
      cases tr.access_token with
      | none => exact fun h => absurd (List.mem_singleton.mp h) (by decide)
      | some token =>
        dsimp only
        by_cases htok : token = ""
        · rw [if_pos htok]
          exact fun h => absurd (List.mem_singleton.mp h) (by decide)
        · rw [if_neg htok]
          intro h
          rcases List.mem_cons.mp h with h | h
          · exact Event.noConfusion h
          · exact startDateDialog_not_in_handleReport f w h

/-- C10: the "Start Date and End Date are required!" branch is dead code:
the two date strings come from formatting picker dates, so they are
non-empty on every submission and the dialog is never shown. -/
theorem C10_date_required_branch_unreachable (f : FormState) (w : World) :
    0 < (formatDateISO f.start_date_val).length ∧
    0 < (formatDateISO f.end_date_val).length ∧
    (background_task f w).count
      (.errorDialog "Error" "Start Date and End Date are required!") = 0 := by
  refine ⟨?_, ?_, ?_⟩
  · cases hd : formatDateISO f.start_date_val with
    | mk l =>
      cases l with
      | nil => exact absurd hd (by intro hh; exact formatDateISO_ne_empty _ hh)
      | cons c cs => simp [String.length]
  · cases hd : formatDateISO f.end_date_val with
    | mk l =>
      cases l with
      | nil => exact absurd hd (by intro hh; exact formatDateISO_ne_empty _ hh)
      | cons c cs => simp [String.length]
  · rw [List.count_eq_zero]
    intro h
    rcases List.mem_append.mp h with h | h
    · unfold backgroundTaskBody at h
      by_cases c1 : (strip f.app_id_raw = "" ∨ strip f.tenant_id_raw = "" ∨
          strip f.app_secret_raw = "")
      · rw [if_pos c1] at h
        exact absurd (List.mem_singleton.mp h) (by decide)
      · rw [if_neg c1] at h
        by_cases c2 : (formatDateISO f.start_date_val = "" ∨
            formatDateISO f.end_date_val = "")
        · exact absurd c2 (by rintro (hh | hh) <;> exact formatDateISO_ne_empty _ hh)
        · rw [if_neg c2] at h
          by_cases c3 : f.save_path = ""
          · rw [if_pos c3] at h
            exact absurd (List.mem_singleton.mp h) (by decide)
          · rw [if_neg c3] at h
            by_cases c4 : (f.report_type = "Message Trace Detail" ∧
                (strip f.sender_address_raw = "" ∨
                 strip f.recipient_address_raw = "" ∨
                 strip f.message_trace_id_raw = ""))
            · rw [if_pos c4] at h
              exact absurd (List.mem_singleton.mp h) (by decide)
            · rw [if_neg c4] at h
              rcases List.mem_append.mp h with h | h
              · cases hd : w.dirExists
                · rw [hd, if_neg Bool.false_ne_true] at h
                  exact Event.noConfusion (List.mem_singleton.mp h)
                · rw [hd, if_pos rfl] at h
                  exact absurd h (List.not_mem_nil _)
              · rcases List.mem_cons.mp h with h | h
                · exact Event.noConfusion h
                rcases List.mem_cons.mp h with h | h
                · exact Event.noConfusion h
                exact startDateDialog_not_in_afterToken f w h
    · exact Event.noConfusion (List.mem_singleton.mp h)

/-! ### Concrete sample inputs used by the witnesses -/

/-- A valid trace-mode submission. -/
def sampleForm : FormState :=
  ⟨"appid", "tenantid", "secret", ⟨2025, 10, 1⟩, ⟨2025, 10, 5⟩,
   "C:/temp/ReportingWebServices-logs", "Message Trace", "", "", ""⟩

/-- A valid detail-mode submission. -/
def sampleDetailForm : FormState :=
  ⟨"appid", "tenantid", "secret", ⟨2025, 10, 1⟩, ⟨2025, 10, 5⟩,
   "C:/temp/ReportingWebServices-logs", "Message Trace Detail",
   "sender@contoso.com", "rcpt@contoso.com",
   "11111111-2222-3333-4444-555555555555"⟩

/-- A world in which both HTTP calls succeed. -/
def sampleWorld : World :=
  ⟨true, .resp ⟨200, some "tkn"⟩, .resp ⟨200, "ok", [60, 116, 62]⟩,
   ⟨2025, 10, 12, 9, 30, 0⟩⟩

/-! ### C1 -/

/-- C1: whenever the submission passes validation, the token POST succeeds
with a (non-empty) access token and the report GET returns status 200, the
run performs exactly one file write, into the chosen save folder, named
`MessageTraceReport_` + the `yyyyMMdd_HHmmss` timestamp + `.xml`, with
content exactly the bytes of the report response body. -/
theorem C1_success_exactly_one_file {f : FormState} {w : World}
    {tr : TokenResponse} {tok : String} {rr : ReportResponse}
    (hv : passesValidation f)
    (ht : w.tokenOutcome = .resp tr) (hs : tr.status < 400)
    (hk : tr.access_token = some tok) (hne : tok ≠ "")
    (hr : w.reportOutcome = .resp rr) (h200 : rr.status_code = 200) :
    (background_task f w).filter isWriteEvent =
      [.writeFile
        (joinPath f.save_path
          ("MessageTraceReport_" ++ formatTimestampCompact w.now ++ ".xml"))
        rr.content] := by
  rw [run_success hv ht hs hk hne hr h200]
  cases hd : w.dirExists <;>
    simp [isWriteEvent, outputPath]

/-- Witness for C1 at the concrete sample submission. -/
theorem C1_witness :
    (background_task sampleForm sampleWorld).filter isWriteEvent =
      [.writeFile
        (joinPath "C:/temp/ReportingWebServices-logs"
          ("MessageTraceReport_" ++
            formatTimestampCompact ⟨2025, 10, 12, 9, 30, 0⟩ ++ ".xml"))
        [60, 116, 62]] :=
  @C1_success_exactly_one_file sampleForm sampleWorld ⟨200, some "tkn"⟩ "tkn"
    ⟨200, "ok", [60, 116, 62]⟩ (by decide) rfl (by decide) rfl (by decide)
    rfl rfl

/-! ### C2 -/

/-- C2: every submission that reaches the report fetch issues a GET whose
URL is the mode-selected endpoint with the documented `$filter` string,
carrying the `Authorization: Bearer {token}` header: in trace mode the
MessageTrace endpoint filtered by the date window only; in detail mode the
MessageTraceDetail endpoint with additional equality conjuncts on
MessageTraceId, RecipientAddress and SenderAddress. -/
theorem C2_report_request_url {f : FormState} {w : World}
    {tr : TokenResponse} {tok : String}
    (hv : passesValidation f)
    (ht : w.tokenOutcome = .resp tr) (hs : tr.status < 400)
    (hk : tr.access_token = some tok) (hne : tok ≠ "") :
    Event.reportGet (reportUrl f) ("Bearer " ++ tok) ∈ background_task f w ∧
    (f.report_type ≠ "Message Trace Detail" →
      reportUrl f =
        "https://reports.office365.com/ecp/reportingwebservice/reporting.svc/MessageTrace?$filter=StartDate eq datetime\x27" ++
        formatDateISO f.start_date_val ++
        "T00:00:00Z\x27 and EndDate eq datetime\x27" ++
        formatDateISO f.end_date_val ++ "T23:59:59Z\x27") ∧
    (f.report_type = "Message Trace Detail" →
      reportUrl f =
        "https://reports.office365.com/ecp/reportingwebservice/reporting.svc/MessageTraceDetail?$filter=MessageTraceId eq guid\x27" ++
        strip f.message_trace_id_raw ++
        "\x27 and RecipientAddress eq \x27" ++ strip f.recipient_address_raw ++
        "\x27 and SenderAddress eq \x27" ++ strip f.sender_address_raw ++
        "\x27 and StartDate eq datetime\x27" ++ formatDateISO f.start_date_val ++
        "T00:00:00Z\x27 and EndDate eq datetime\x27" ++
        formatDateISO f.end_date_val ++ "T23:59:59Z\x27") := by
  refine ⟨?_, ?_, ?_⟩
  · unfold background_task
    rw [body_of_valid w hv, afterToken_success f ht hs hk hne]
    simp
  · intro hrt
    unfold reportUrl
    rw [if_neg hrt]
    rfl
  · intro hrt
    unfold reportUrl
    rw [if_pos hrt]
    rfl

/-- Witness for C2 at the concrete detail-mode submission. -/
theorem C2_witness :
    Event.reportGet (reportUrl sampleDetailForm) ("Bearer " ++ "tkn") ∈
      background_task sampleDetailForm sampleWorld ∧
    (sampleDetailForm.report_type ≠ "Message Trace Detail" →
      reportUrl sampleDetailForm =
        "https://reports.office365.com/ecp/reportingwebservice/reporting.svc/MessageTrace?$filter=StartDate eq datetime\x27" ++
        formatDateISO sampleDetailForm.start_date_val ++
        "T00:00:00Z\x27 and EndDate eq datetime\x27" ++
        formatDateISO sampleDetailForm.end_date_val ++ "T23:59:59Z\x27") ∧
    (sampleDetailForm.report_type = "Message Trace Detail" →
      reportUrl sampleDetailForm =
        "https://reports.office365.com/ecp/reportingwebservice/reporting.svc/MessageTraceDetail?$filter=MessageTraceId eq guid\x27" ++
        strip sampleDetailForm.message_trace_id_raw ++
        "\x27 and RecipientAddress eq \x27" ++
        strip sampleDetailForm.recipient_address_raw ++
        "\x27 and SenderAddress eq \x27" ++
        strip sampleDetailForm.sender_address_raw ++
        "\x27 and StartDate eq datetime\x27" ++
        formatDateISO sampleDetailForm.start_date_val ++
        "T00:00:00Z\x27 and EndDate eq datetime\x27" ++
        formatDateISO sampleDetailForm.end_date_val ++ "T23:59:59Z\x27") :=
  @C2_report_request_url sampleDetailForm sampleWorld ⟨200, some "tkn"⟩ "tkn"
    (by decide) rfl (by decide) rfl (by decide)

/-! ### C8 -/

/-- C8: on every submission and every outcome, the last observable action
of the task is clearing the status label (the `finally` clause). -/
theorem C8_label_always_cleared (f : FormState) (w : World) :
    (background_task f w).getLast? = some (.setLabel "") := by
  unfold background_task
  exact List.getLast?_concat _

/-! ### C6 -/

/-- C6: when the report GET returns any status other than 200, no file is
written and an error dialog whose message contains the response text is
shown. -/
theorem C6_non200_no_file {f : FormState} {w : World} {tr : TokenResponse}
    {tok : String} {rr : ReportResponse} (hv : passesValidation f)
    (ht : w.tokenOutcome = .resp tr) (hs : tr.status < 400)
    (hk : tr.access_token = some tok) (hne : tok ≠ "")
    (hr : w.reportOutcome = .resp rr) (h200 : rr.status_code ≠ 200) :
    (background_task f w).any isWriteEvent = false ∧
    Event.errorDialog "Error" ("API call failed: " ++ rr.text) ∈
      background_task f w := by
  rw [run_reportFail hv ht hs hk hne hr h200]
  constructor
  · cases hd : w.dirExists <;> simp [isWriteEvent]
  · cases hd : w.dirExists <;> simp

/-- A world in which the token call succeeds and the report GET
returns 404. -/
def sampleWorldBadReport : World :=
  ⟨true, .resp ⟨200, some "tkn"⟩, .resp ⟨404, "not found", [1, 2]⟩,
   ⟨2025, 10, 12, 9, 30, 0⟩⟩

/-- Witness for C6 at the concrete 404 world. -/
theorem C6_witness :
    (background_task sampleForm sampleWorldBadReport).any isWriteEvent = false ∧
    Event.errorDialog "Error" ("API call failed: " ++ "not found") ∈
      background_task sampleForm sampleWorldBadReport :=
  @C6_non200_no_file sampleForm sampleWorldBadReport ⟨200, some "tkn"⟩ "tkn"
    ⟨404, "not found", [1, 2]⟩ (by decide) rfl (by decide) rfl (by decide)
    rfl (by decide)

/-! ### C9 -/

/-- C9: once validation passes, the destination folder is created (when
absent) before any network call, so the folder exists afterward even if
the token exchange or the report fetch fails. -/
theorem C9_dir_ensured_before_network {f : FormState} (w : World)
    (hv : passesValidation f) :
    dirBeforeNet w.dirExists (background_task f w) = true ∧
    (w.dirExists || (background_task f w).any isMakeDirsEvent) = true := by
  unfold background_task
  rw [body_of_valid w hv]
  cases hd : w.dirExists
  · refine ⟨?_, ?_⟩
    · simp only [if_neg Bool.false_ne_true, List.cons_append, List.nil_append,
        dirBeforeNet, isNetworkEvent, isMakeDirsEvent]
      simp [dirBeforeNet_of_true]
    · simp [isMakeDirsEvent]
  · refine ⟨dirBeforeNet_of_true _, by simp⟩

/-- A world whose destination folder does not exist yet and whose token
call fails with a transport error. -/
def sampleWorldNoDir : World :=
  ⟨false, .err "connection refused", .resp ⟨200, "ok", [60]⟩,
   ⟨2025, 10, 12, 9, 31, 0⟩⟩

/-- Witness for C9: the folder is created before any network call even
though token acquisition then fails. -/
theorem C9_witness :
    dirBeforeNet sampleWorldNoDir.dirExists
      (background_task sampleForm sampleWorldNoDir) = true ∧
    (sampleWorldNoDir.dirExists ||
      (background_task sampleForm sampleWorldNoDir).any isMakeDirsEvent) = true :=
  C9_dir_ensured_before_network sampleWorldNoDir (by decide)

/-! ### C4 -/

/-- A validation-failure trace satisfies the no-network-plus-error-dialog
conclusion. -/
lemma errorOnly_conclusion (M : String) :
    ([Event.errorDialog "Error" M] ++ [Event.setLabel ""]).any isNetworkEvent
      = false ∧
    ∃ m, Event.errorDialog "Error" m ∈
      ([Event.errorDialog "Error" M] ++ [Event.setLabel ""]) :=
  ⟨by simp [isNetworkEvent], M, by simp⟩

lemma handleReport_ignores_detail_fields
    (a b c : String) (d e : Date) (p rt s1 r1 m1 s2 r2 m2 : String)
    (w : World) :
    handleReport ⟨a, b, c, d, e, p, rt, s1, r1, m1⟩ w =
      handleReport ⟨a, b, c, d, e, p, rt, s2, r2, m2⟩ w := rfl

lemma afterToken_ignores_detail_fields
    (a b c : String) (d e : Date) (p rt s1 r1 m1 s2 r2 m2 : String)
    (w : World) (hrt : rt ≠ "Message Trace Detail") :
    afterToken ⟨a, b, c, d, e, p, rt, s1, r1, m1⟩ w =
      afterToken ⟨a, b, c, d, e, p, rt, s2, r2, m2⟩ w := by
  unfold afterToken
  cases w.tokenOutcome with
  | err msg => rfl
  | resp tr =>
    dsimp only
    by_cases hs : (400 ≤ tr.status ∧ tr.status < 600)
    · rw [if_pos hs, if_pos hs]
    · rw [if_neg hs, if_neg hs]
      cases tr.access_token with
      | none => rfl
      | some token =>
        dsimp only
        by_cases htok : token = ""
        · rw [if_pos htok, if_pos htok]
        · rw [if_neg htok, if_neg htok]
          rw [handleReport_ignores_detail_fields a b c d e p rt s1 r1 m1 s2 r2 m2 w]
          unfold reportUrl
          dsimp only
          rw [if_neg hrt, if_neg hrt]

/-- C4: in detail mode, a blank sender, recipient or trace id (after
trimming) blocks the submission with an error dialog before any network
call; in trace mode the three detail fields are never read: any two
submissions differing only in those fields produce identical traces. -/
theorem C4_detail_fields_gate_and_trace_mode_independence
    (f : FormState) (w : World) :
    (f.report_type = "Message Trace Detail" →
      (strip f.sender_address_raw = "" ∨ strip f.recipient_address_raw = "" ∨
       strip f.message_trace_id_raw = "") →
      (background_task f w).any isNetworkEvent = false ∧
      ∃ m, Event.errorDialog "Error" m ∈ background_task f w) ∧
    (f.report_type ≠ "Message Trace Detail" →
      ∀ s r m : String,
        background_task
          ⟨f.app_id_raw, f.tenant_id_raw, f.app_secret_raw, f.start_date_val,
           f.end_date_val, f.save_path, f.report_type, s, r, m⟩ w =
        background_task f w) := by
  constructor
  · intro hrt hempty
    unfold background_task backgroundTaskBody
    by_cases c1 : (strip f.app_id_raw = "" ∨ strip f.tenant_id_raw = "" ∨
        strip f.app_secret_raw = "")
    · rw [if_pos c1]
      exact errorOnly_conclusion _
    · rw [if_neg c1]
      by_cases c2 : (formatDateISO f.start_date_val = "" ∨
          formatDateISO f.end_date_val = "")
      · rw [if_pos c2]
        exact errorOnly_conclusion _
      · rw [if_neg c2]
        by_cases c3 : f.save_path = ""
        · rw [if_pos c3]
          exact errorOnly_conclusion _
        · rw [if_neg c3]
          rw [if_pos ⟨hrt, hempty⟩]
          exact errorOnly_conclusion _
  · intro hrt s r m
    obtain ⟨a, b, c, d, e, p, rt, s0, r0, m0⟩ := f
    simp only at hrt
    unfold background_task backgroundTaskBody
    dsimp only
    have hc4a : ¬(rt = "Message Trace Detail" ∧
        (strip s = "" ∨ strip r = "" ∨ strip m = "")) := fun hc => hrt hc.1
    have hc4b : ¬(rt = "Message Trace Detail" ∧
        (strip s0 = "" ∨ strip r0 = "" ∨ strip m0 = "")) := fun hc => hrt hc.1
    rw [if_neg hc4a, if_neg hc4b,
        afterToken_ignores_detail_fields a b c d e p rt s r m s0 r0 m0 w hrt]

/-! ### C3 -/

def isErrorDialogEvent : Event → Bool
  | .errorDialog _ _ => true
  | _ => false

/-- A submission whose destination folder is whitespace only (all other
fields valid). -/
def blankPathForm : FormState :=
  ⟨"appid", "tenantid", "secret", ⟨2025, 10, 1⟩, ⟨2025, 10, 5⟩, " ",
   "Message Trace", "", "", ""⟩

/-- C3 counterexample: the destination folder `" "` is empty after
trimming, yet the submission issues both HTTP requests and shows no error
dialog at all — the code tests the folder as the raw string
(`if not save_path`), without trimming. -/
theorem C3_counterexample :
    strip blankPathForm.save_path = "" ∧
    (background_task blankPathForm sampleWorld).any isNetworkEvent = true ∧
    (background_task blankPathForm sampleWorld).any isErrorDialogEvent
      = false := by decide

/-- C3 (amended): if the app id, tenant id or app secret is empty after
trimming, either formatted date string is empty, or the destination folder
is the empty string (untrimmed), then no HTTP request is issued and an
error dialog is shown. -/
theorem C3_missing_fields_block_submission (f : FormState) (w : World)
    (h : strip f.app_id_raw = "" ∨ strip f.tenant_id_raw = "" ∨
         strip f.app_secret_raw = "" ∨ formatDateISO f.start_date_val = "" ∨
         formatDateISO f.end_date_val = "" ∨ f.save_path = "") :
    (background_task f w).any isNetworkEvent = false ∧
    ∃ m, Event.errorDialog "Error" m ∈ background_task f w := by
  unfold background_task backgroundTaskBody
  by_cases c1 : (strip f.app_id_raw = "" ∨ strip f.tenant_id_raw = "" ∨
      strip f.app_secret_raw = "")
  · rw [if_pos c1]
    exact errorOnly_conclusion _
  · rw [if_neg c1]
    by_cases c2 : (formatDateISO f.start_date_val = "" ∨
        formatDateISO f.end_date_val = "")
    · rw [if_pos c2]
      exact errorOnly_conclusion _
    · rw [if_neg c2]
      by_cases c3 : f.save_path = ""
      · rw [if_pos c3]
        exact errorOnly_conclusion _
      · exfalso
        rcases h with h | h | h | h | h | h
        · exact c1 (Or.inl h)
        · exact c1 (Or.inr (Or.inl h))
        · exact c1 (Or.inr (Or.inr h))
        · exact c2 (Or.inl h)
        · exact c2 (Or.inr h)
        · exact c3 h

/-- A submission with a blank app id. -/
def missingIdForm : FormState :=
  ⟨"", "tenantid", "secret", ⟨2025, 10, 1⟩, ⟨2025, 10, 5⟩,
   "C:/temp/ReportingWebServices-logs", "Message Trace", "", "", ""⟩

/-- Witness for the amended C3 at a concrete blank-app-id submission. -/
theorem C3_witness :
    (background_task missingIdForm sampleWorld).any isNetworkEvent = false ∧
    ∃ m, Event.errorDialog "Error" m ∈
      background_task missingIdForm sampleWorld :=
  C3_missing_fields_block_submission missingIdForm sampleWorld (by decide)

/-! ### C5 -/

/-- A world whose token response has a redirect status but still carries
an access token in its JSON body. -/
def sampleWorldRedirectToken : World :=
  ⟨true, .resp ⟨302, some "tkn"⟩, .resp ⟨200, "ok", [60]⟩,
   ⟨2025, 10, 12, 9, 32, 0⟩⟩

/-- C5 counterexample: the token endpoint returns the non-success status
302 (`raise_for_status` only raises on 4xx/5xx), yet the report GET is
still issued because the JSON body carries an access token. -/
theorem C5_counterexample :
    sampleWorldRedirectToken.tokenOutcome =
      HttpOutcome.resp ⟨302, some "tkn"⟩ ∧
    (background_task sampleForm sampleWorldRedirectToken).any
      isReportGetEvent = true := by decide

/-- C5 (amended): if the token endpoint responds with an HTTP error
status (400-599, exactly the statuses `raise_for_status` raises on) or
its JSON omits the access token, then no report GET is issued, an error
dialog is shown, and no second token POST is attempted. -/
theorem C5_token_failure_aborts (f : FormState) (w : World)
    (tr : TokenResponse) (ht : w.tokenOutcome = .resp tr)
    (hfail : (400 ≤ tr.status ∧ tr.status < 600) ∨ tr.access_token = none) :
    (background_task f w).any isReportGetEvent = false ∧
    (∃ m, Event.errorDialog "Error" m ∈ background_task f w) ∧
    ((background_task f w).filter isTokenPostEvent).length ≤ 1 := by
  unfold background_task backgroundTaskBody
  by_cases c1 : (strip f.app_id_raw = "" ∨ strip f.tenant_id_raw = "" ∨
      strip f.app_secret_raw = "")
  · rw [if_pos c1]
    exact ⟨by simp [isReportGetEvent],
      ⟨"App ID, Tenant ID, and App Secret are required!", by simp⟩,
      by simp [isTokenPostEvent]⟩
  · rw [if_neg c1]
    by_cases c2 : (formatDateISO f.start_date_val = "" ∨
        formatDateISO f.end_date_val = "")
    · rw [if_pos c2]
      exact ⟨by simp [isReportGetEvent],
        ⟨"Start Date and End Date are required!", by simp⟩,
        by simp [isTokenPostEvent]⟩
    · rw [if_neg c2]
      by_cases c3 : f.save_path = ""
      · rw [if_pos c3]
        exact ⟨by simp [isReportGetEvent],
          ⟨"Please select a folder to save the report!", by simp⟩,
          by simp [isTokenPostEvent]⟩
      · rw [if_neg c3]
        by_cases c4 : (f.report_type = "Message Trace Detail" ∧
            (strip f.sender_address_raw = "" ∨
             strip f.recipient_address_raw = "" ∨
             strip f.message_trace_id_raw = ""))
        · rw [if_pos c4]
          exact ⟨by simp [isReportGetEvent],
            ⟨"Sender Address, Recipient Address, and Message Trace ID are mandatory for Message Trace Detail!",
             by simp⟩,
            by simp [isTokenPostEvent]⟩
        · rw [if_neg c4]
          unfold afterToken
          rw [ht]
          dsimp only
          by_cases hs : (400 ≤ tr.status ∧ tr.status < 600)
          · rw [if_pos hs]
            cases hd : w.dirExists <;>
              exact ⟨by simp [isReportGetEvent],
                ⟨"Request error: " ++ httpStatusError tr.status, by simp⟩,
                by simp [isTokenPostEvent]⟩
          · rw [if_neg hs]
            have hnone : tr.access_token = none := by
              rcases hfail with hf | hf
              · exact absurd hf hs
              · exact hf
            rw [hnone]
            dsimp only
            cases hd : w.dirExists <;>
              exact ⟨by simp [isReportGetEvent],
                ⟨"Failed to retrieve OAuth token!", by simp⟩,
                by simp [isTokenPostEvent]⟩

/-- A world whose token call returns 500 with no token. -/
def sampleWorldTokenFail : World :=
  ⟨true, .resp ⟨500, none⟩, .resp ⟨200, "ok", [60]⟩,
   ⟨2025, 10, 12, 9, 33, 0⟩⟩

/-- Witness for the amended C5 at a concrete 500 token response. -/
theorem C5_witness :
    (background_task sampleForm sampleWorldTokenFail).any isReportGetEvent
      = false ∧
    (∃ m, Event.errorDialog "Error" m ∈
      background_task sampleForm sampleWorldTokenFail) ∧
    ((background_task sampleForm sampleWorldTokenFail).filter
      isTokenPostEvent).length ≤ 1 :=
  C5_token_failure_aborts sampleForm sampleWorldTokenFail ⟨500, none⟩ rfl
    (Or.inl (by decide))

/-! ### C7 -/

/-- C7 counterexample: two consecutive successful submissions completing
within the same second produce the same file name, so the second write
replaces the first and only ONE file exists afterward — not two. -/
theorem C7_counterexample :
    ((background_task sampleForm sampleWorld).filter isWriteEvent).length
      = 1 ∧
    (applyEvents (applyEvents [] (background_task sampleForm sampleWorld))
      (background_task sampleForm sampleWorld)).length = 1 := by decide

/-- Distinct formatted timestamps give distinct output paths. -/
lemma outputPath_inj (f : FormState) {w1 w2 : World}
    (hts : formatTimestampCompact w1.now ≠ formatTimestampCompact w2.now) :
    outputPath f w1 ≠ outputPath f w2 := by
  intro h
  apply hts
  unfold outputPath joinPath at h
  have hd := congrArg String.data h
  simp only [String.data_append] at hd
  have h1 := List.append_cancel_left hd
  have h2 := List.append_cancel_right h1
  have h3 := List.append_cancel_left h2
  exact String.ext h3

/-- Running a fully successful submission against the filesystem adds the
output file (replacing any file of that name). -/
lemma applyEvents_success_run {f : FormState} {w : World}
    {tr : TokenResponse} {tok : String} {rr : ReportResponse}
    (fs : List (String × List Nat)) (hv : passesValidation f)
    (ht : w.tokenOutcome = .resp tr) (hs : tr.status < 400)
    (hk : tr.access_token = some tok) (hne : tok ≠ "")
    (hr : w.reportOutcome = .resp rr) (h200 : rr.status_code = 200) :
    applyEvents fs (background_task f w) =
      (outputPath f w, rr.content) ::
        fs.filter (fun e => e.1 != outputPath f w) := by
  rw [run_success hv ht hs hk hne hr h200]
  cases hd : w.dirExists <;> simp [applyEvents, applyEvent]

/-- C7 (amended): two consecutive successful submissions whose wall-clock
timestamps differ (in particular, fall in different seconds) write files
with distinct names, and both files are present in the filesystem after
the second submission completes. -/
theorem C7_two_submissions_two_files {f : FormState} {w1 w2 : World}
    {tr1 tok1 rr1 tr2 tok2 rr2} (fs0 : List (String × List Nat))
    (hv : passesValidation f)
    (ht1 : w1.tokenOutcome = .resp tr1) (hs1 : tr1.status < 400)
    (hk1 : tr1.access_token = some tok1) (hne1 : tok1 ≠ "")
    (hr1 : w1.reportOutcome = .resp rr1) (h200a : rr1.status_code = 200)
    (ht2 : w2.tokenOutcome = .resp tr2) (hs2 : tr2.status < 400)
    (hk2 : tr2.access_token = some tok2) (hne2 : tok2 ≠ "")
    (hr2 : w2.reportOutcome = .resp rr2) (h200b : rr2.status_code = 200)
    (hb : w1.now.year < 10000 ∧ w1.now.month < 100 ∧ w1.now.day < 100 ∧
      w1.now.hour < 100 ∧ w1.now.minute < 100 ∧ w1.now.second < 100 ∧
      w2.now.year < 10000 ∧ w2.now.month < 100 ∧ w2.now.day < 100 ∧
      w2.now.hour < 100 ∧ w2.now.minute < 100 ∧ w2.now.second < 100)
    (hnow : w1.now ≠ w2.now) :
    outputPath f w1 ≠ outputPath f w2 ∧
    (background_task f w1).filter isWriteEvent =
      [.writeFile (outputPath f w1) rr1.content] ∧
    (background_task f w2).filter isWriteEvent =
      [.writeFile (outputPath f w2) rr2.content] ∧
    (outputPath f w1, rr1.content) ∈
      applyEvents (applyEvents fs0 (background_task f w1))
        (background_task f w2) ∧
    (outputPath f w2, rr2.content) ∈
      applyEvents (applyEvents fs0 (background_task f w1))
        (background_task f w2) := by
  obtain ⟨b1, b2, b3, b4, b5, b6, b7, b8, b9, b10, b11, b12⟩ := hb
  have hts : formatTimestampCompact w1.now ≠ formatTimestampCompact w2.now :=
    fun hteq => hnow
      (formatTimestampCompact_inj b1 b7 b2 b8 b3 b9 b4 b10 b5 b11 b6 b12 hteq)
  have hpath := outputPath_inj f hts
  have happ1 := applyEvents_success_run fs0 hv ht1 hs1 hk1 hne1 hr1 h200a
  have happ2 := applyEvents_success_run
    (applyEvents fs0 (background_task f w1)) hv ht2 hs2 hk2 hne2 hr2 h200b
  refine ⟨hpath, ?_, ?_, ?_, ?_⟩
  · rw [run_success hv ht1 hs1 hk1 hne1 hr1 h200a]
    cases hd : w1.dirExists <;> simp [isWriteEvent]
  · rw [run_success hv ht2 hs2 hk2 hne2 hr2 h200b]
    cases hd : w2.dirExists <;> simp [isWriteEvent]
  · rw [happ2, happ1]
    refine List.mem_cons_of_mem _ (List.mem_filter.mpr ⟨List.mem_cons_self _ _, ?_⟩)
    exact bne_iff_ne.mpr hpath
  · rw [happ2]
    exact List.mem_cons_self _ _

/-- The same successful submission one second later. -/
def sampleWorldLater : World :=
  ⟨true, .resp ⟨200, some "tkn"⟩, .resp ⟨200, "ok2", [70]⟩,
   ⟨2025, 10, 12, 9, 30, 1⟩⟩

/-- Witness for the amended C7 at two concrete submissions one second
apart. -/
theorem C7_witness :
    outputPath sampleForm sampleWorld ≠ outputPath sampleForm sampleWorldLater ∧
    (background_task sampleForm sampleWorld).filter isWriteEvent =
      [.writeFile (outputPath sampleForm sampleWorld) [60, 116, 62]] ∧
    (background_task sampleForm sampleWorldLater).filter isWriteEvent =
      [.writeFile (outputPath sampleForm sampleWorldLater) [70]] ∧
    (outputPath sampleForm sampleWorld, [60, 116, 62]) ∈
      applyEvents (applyEvents [] (background_task sampleForm sampleWorld))
        (background_task sampleForm sampleWorldLater) ∧
    (outputPath sampleForm sampleWorldLater, [70]) ∈
      applyEvents (applyEvents [] (background_task sampleForm sampleWorld))
        (background_task sampleForm sampleWorldLater) :=
  @C7_two_submissions_two_files sampleForm sampleWorld sampleWorldLater
    ⟨200, some "tkn"⟩ "tkn" ⟨200, "ok", [60, 116, 62]⟩
    ⟨200, some "tkn"⟩ "tkn" ⟨200, "ok2", [70]⟩ []
    (by decide) rfl (by decide) rfl (by decide) rfl rfl
    rfl (by decide) rfl (by decide) rfl rfl
    (by decide) (by decide)

end RWS
